import Mathlib

/-!
# Conversation-turn orchestrator: shallow embedding

Shallow embedding of the conversation-turn orchestrator of the `chat`
repository (React/TypeScript).  The embedded functions follow
`src/components/ChatInterface.tsx` (`handleSendMessage`,
`handleAssistantWorkflow`, `handleDirectCompletionWorkflow`,
`updateThreadNameIfNeeded`, `sendWebhookIfConfigured`),
`src/services/api.ts` (`sendMessage`, `checkRunStatus`, `sendWebhook`,
`createCompletion`) and `src/store.ts` (`addMessage`).

Network responses are modelled by an explicit `Gateway` oracle giving the
result of each remote call; the orchestrator is a pure function from the
inputs and the oracle to the ordered list of observable events (store
appends, gateway calls, thread rename, webhook dispatch) together with the
turn outcome.
-/

namespace Chat

/-- Message author role (`'user' | 'assistant'` in `src/types.ts`). -/
inductive Role where
  | user
  | assistant
deriving DecidableEq, Repr

/-- Run status (`OpenAIRunResponse.status` in `src/types.ts`). -/
inductive RunStatus where
  | queued
  | in_progress
  | completed
  | requires_action
  | failed
  | cancelled
  | expired
deriving DecidableEq, Repr

instance : BEq Role := ⟨fun a b => decide (a = b)⟩
instance : BEq RunStatus := ⟨fun a b => decide (a = b)⟩

/-- Attachment descriptor (`Attachment` in `src/types.ts`). -/
structure Attachment where
  id : String
  filename : String
  content_type : String
  file_size : Nat
deriving DecidableEq, Repr

/-- Store message record (`Message` in `src/types.ts`; the store-assigned
`id` field is left out, it is irrelevant to the orchestrator). -/
structure Message where
  threadId : String
  content : String
  role : Role
  timestamp : String
  attachments : List Attachment
deriving DecidableEq, Repr

/-- Conversation/thread record (`Thread` in `src/types.ts`). -/
structure Thread where
  threadId : String
  name : String
  createdAt : String
  lastUpdated : String
  isActive : Bool
deriving DecidableEq, Repr

/-- Configuration record (`Configuration` in `src/types.ts`).  Optional
string fields are plain strings: the TypeScript code tests them for
truthiness, i.e. emptiness. -/
structure Configuration where
  apiKey : String
  assistantId : String
  vectorStoreId : String
  model : String
  isDefault : Bool
  name : String
  webhookURL : String
  useAssistantApi : Bool
deriving DecidableEq, Repr

/-- One content segment of a fetched thread message
(`OpenAIMessageResponse.content` element: `{type, text?: {value}}`). -/
structure ContentSegment where
  ty : String
  text : Option String
deriving DecidableEq, Repr

/-- A fetched thread message (`OpenAIMessageResponse`), restricted to the
fields the orchestrator reads, plus `created_at` (the provider's creation
time, used only to express "most recently added"). -/
structure ApiMessage where
  id : String
  created_at : Nat
  role : Role
  content : List ContentSegment
deriving DecidableEq, Repr

/-- A run object as returned by `runAssistant` (`OpenAIRunResponse`,
restricted to the fields read: `id` and `status`). -/
structure RunObj where
  id : String
  status : RunStatus
deriving DecidableEq, Repr

/-- One choice of a completion response
(`CompletionResponse.choices` element). -/
structure CompletionChoice where
  index : Nat
  messageRole : String
  messageContent : String
  finish_reason : String
deriving DecidableEq, Repr

/-- A completion response (`CompletionResponse`), restricted to the field
the orchestrator reads. -/
structure CompletionResponse where
  choices : List CompletionChoice
deriving DecidableEq, Repr

/-- An entry of the outbound completion history
(`{role, content}` objects built in `handleDirectCompletionWorkflow`). -/
structure ChatEntry where
  role : Role
  content : String
deriving DecidableEq, Repr

/-- Typed turn errors.  The TypeScript code throws `Error` objects with
fixed message strings from distinct throw sites; each site is one
constructor, gateway-call failures carry the propagated message. -/
inductive TurnError where
  /-- an error propagated unmodified from a gateway call -/
  | gatewayError (msg : String)
  /-- thrown as `'Assistant run failed. Please try again.'` -/
  | runFailed
  /-- thrown as `'Assistant run was cancelled.'` -/
  | runCancelled
  /-- thrown as `'Assistant run timed out. Please try again.'` -/
  | runTimedOut
  /-- thrown as `'No assistant response found in the thread'` -/
  | noReplyFound
  /-- thrown as `'No response received from the model'` -/
  | emptyCompletion
deriving DecidableEq, Repr

/-- Gateway calls the orchestrator can issue, with the arguments it
passes.  `sendMsg`'s last component is the `file_ids` field of the posted
payload (`none` when the field is absent). -/
inductive GwCall where
  | sendMsg (threadId : String) (content : String) (fileIdsField : Option (List String))
  | startRun (threadId : String)
  | pollRun (threadId : String) (runId : String)
  | listMessages (threadId : String)
  | completion (history : List Chat.ChatEntry)
deriving DecidableEq, Repr

/-- Observable events of one turn, in program order. -/
inductive Event where
  /-- `addMessage` on the store -/
  | storeAppend (m : Chat.Message)
  /-- a gateway (network) call is issued -/
  | gwCall (c : GwCall)
  /-- `updateThread` renaming the active thread -/
  | storeRename (newName : String)
  /-- `sendWebhook` dispatched; carries its boolean result -/
  | webhook (delivered : Bool)
deriving DecidableEq, Repr

/-- Oracle for the results of the remote calls one turn may issue.
`pollResult i` is the result of the `(i+1)`-th `checkRunStatus` call. -/
structure Gateway where
  sendMessageResult : Except String String
  startRunResult : Except String Chat.RunObj
  pollResult : Nat → Except String Chat.RunStatus
  listResult : Except String (List Chat.ApiMessage)
  completionResult : Except String Chat.CompletionResponse
  /-- result of the `axios.post` inside `sendWebhook`: `.ok` on delivery -/
  webhookPost : Except String Unit

/-- Terminal outcome of one `handleSendMessage` invocation. -/
inductive Outcome where
  /-- a validation precondition failed; the handler returned at once -/
  | noOp
  /-- the turn produced an assistant reply -/
  | completed
  /-- the workflow threw; caught by the parent handler -/
  | failed (e : TurnError)
deriving DecidableEq, Repr

/-- Loop-exit test of the polling loop in `handleAssistantWorkflow`:
the `while` condition is
`runStatus !== 'completed' && runStatus !== 'failed' && runStatus !== 'cancelled' && pollCount < maxPolls`. -/
def isTerminal (s : Chat.RunStatus) : Bool :=
  s == .completed || s == .failed || s == .cancelled

/-- The polling loop of `handleAssistantWorkflow` (ChatInterface.tsx
lines 107–123), with `fuel = maxPolls - pollCount` making the `while`
loop structurally recursive.  Returns the final `runStatus` (or the
exception a `checkRunStatus` call threw) together with the total number
of `checkRunStatus` calls issued. -/
def pollLoopGo (poll : Nat → Except String Chat.RunStatus) :
    Chat.RunStatus → Nat → Nat → Except String Chat.RunStatus × Nat
  | status, pollCount, fuel =>
    if isTerminal status then (.ok status, pollCount)
    else
      match fuel with
      | 0 => (.ok status, pollCount)
      | fuel' + 1 =>
        match poll pollCount with
        | .error e => (.error e, pollCount + 1)
        | .ok s => pollLoopGo poll s (pollCount + 1) fuel'

/-- The polling phase: `pollCount` starts at 0, `maxPolls` iterations. -/
def pollLoop (poll : Nat → Except String Chat.RunStatus)
    (status : Chat.RunStatus) (maxPolls : Nat) :
    Except String Chat.RunStatus × Nat :=
  pollLoopGo poll status 0 maxPolls

/-- `file_ids` field of the payload built by `sendMessage`
(api.ts lines 100–109): the default parameter turns an absent argument
into `[]`, and the field is set only when the list is non-empty. -/
def sendMessagePayloadFileIds (fileIds : Option (List String)) :
    Option (List String) :=
  let l := fileIds.getD []
  if l.length > 0 then some l else none

/-- `sendWebhook` (api.ts lines 416–433): posts and returns `true`, or
catches the exception and returns `false`; it never rethrows. -/
def sendWebhook (post : Except String Unit) : Except String Bool :=
  match post with
  | .ok _ => .ok true
  | .error _ => .ok false

/-- Reply-text extraction on the `completed` path (ChatInterface.tsx
lines 137–140): keep segments whose `type` is `'text'`, take
`c.text?.value || ''` of each, join with `'\n'`. -/
def extractText (segments : List Chat.ContentSegment) : String :=
  String.intercalate "\n"
    ((segments.filter (fun c => c.ty == "text")).map (fun c => c.text.getD ""))

/-- `response.choices[0]?.message?.content` of the direct path. -/
def completionText (r : Chat.CompletionResponse) : Option String :=
  r.choices.head?.map (fun c => c.messageContent)

/-- JavaScript truthiness of `assistantResponse` in
`handleDirectCompletionWorkflow`: defined and non-empty. -/
def isTruthyStr (o : Option String) : Bool :=
  match o with
  | some s => s ≠ ""
  | none => false

/-- JavaScript `s.startsWith(pre)`, written over the character lists so
that it evaluates by kernel reduction. -/
def startsWithStr (s pre : String) : Bool :=
  pre.toList.isPrefixOf s.toList

/-- JavaScript `s.split(' ')` on the character list: split at every single
space, keeping empty fragments (`"".split(' ')` is `[""]`). -/
def splitOnSpaceAux : List Char → List (List Char)
  | [] => [[]]
  | c :: rest =>
    match splitOnSpaceAux rest with
    | [] => [[]]
    | grp :: groups =>
      if c = ' ' then [] :: grp :: groups else (c :: grp) :: groups

/-- JavaScript `s.split(' ')`. -/
def splitOnSpace (s : String) : List String :=
  (splitOnSpaceAux s.toList).map String.mk

/-- The thread-name derivation of `updateThreadNameIfNeeded`
(ChatInterface.tsx line 240–241):
`userInput.split(' ').slice(0, 4).join(' ') + '...'`. -/
def deriveThreadName (userInput : String) : String :=
  String.intercalate " " ((splitOnSpace userInput).take 4) ++ "..."

/-- `updateThreadNameIfNeeded` (ChatInterface.tsx lines 235–247): rename
only when the current name starts with `'Thread '`. -/
def updateThreadNameIfNeeded (activeThread : Chat.Thread) (userInput : String) :
    Chat.Thread :=
  if startsWithStr activeThread.name "Thread " then
    { activeThread with name := deriveThreadName userInput }
  else activeThread

/-- Default thread name assigned by `handleCreateThread`
(ThreadList.tsx line 70): `` `Thread ${threads.length + 1}` ``. -/
def defaultThreadName (threadCount : Nat) : String :=
  "Thread " ++ toString (threadCount + 1)

/-- Rename events of the post-success side effect (the `updateThread`
call of `updateThreadNameIfNeeded` when the guard holds). -/
def renameEvents (activeThread : Chat.Thread) (userInput : String) : List Event :=
  if startsWithStr activeThread.name "Thread " then
    [Event.storeRename (deriveThreadName userInput)]
  else []

/-- `sendWebhookIfConfigured` (ChatInterface.tsx lines 249–261): when a
webhook URL is configured, dispatch `sendWebhook` and ignore its result. -/
def webhookEvents (config : Chat.Configuration) (gw : Gateway) : List Event :=
  if config.webhookURL ≠ "" then
    [Event.webhook ((sendWebhook gw.webhookPost).toOption.getD false)]
  else []

/-- `handleAssistantWorkflow` (ChatInterface.tsx lines 79–179), given the
non-null configuration and thread the caller established.  Returns the
ordered event list and the thrown-or-ok result. -/
def handleAssistantWorkflow (config : Chat.Configuration)
    (activeThread : Chat.Thread) (fileAttachmentCount : Nat) (gw : Gateway)
    (userInput : String) (ts : String) :
    List Event × Except TurnError Unit :=
  -- `const fileIds = fileAttachments.length > 0 ? [] : undefined;`
  let fileIds : Option (List String) :=
    if fileAttachmentCount > 0 then some [] else none
  let sendEv := Event.gwCall
    (GwCall.sendMsg activeThread.threadId userInput
      (sendMessagePayloadFileIds fileIds))
  match gw.sendMessageResult with
  | .error e => ([sendEv], .error (.gatewayError e))
  | .ok _ =>
    let runEv := Event.gwCall (GwCall.startRun activeThread.threadId)
    match gw.startRunResult with
    | .error e => ([sendEv, runEv], .error (.gatewayError e))
    | .ok runResponse =>
      let polled := pollLoop gw.pollResult runResponse.status 60
      let pollEvs := List.replicate polled.2
        (Event.gwCall (GwCall.pollRun activeThread.threadId runResponse.id))
      match polled.1 with
      | .error e => (sendEv :: runEv :: pollEvs, .error (.gatewayError e))
      | .ok runStatus =>
        if runStatus == .completed then
          let listEv := Event.gwCall (GwCall.listMessages activeThread.threadId)
          match gw.listResult with
          | .error e =>
            (sendEv :: runEv :: pollEvs ++ [listEv], .error (.gatewayError e))
          | .ok data =>
            -- `messagesResponse.data.find(m => m.role === 'assistant')`
            match data.find? (fun m => m.role == Chat.Role.assistant) with
            | some assistantMessage =>
              let content := extractText assistantMessage.content
              let newAssistantMessage : Chat.Message :=
                { threadId := activeThread.threadId, content := content,
                  role := .assistant, timestamp := ts, attachments := [] }
              (sendEv :: runEv :: pollEvs
                 ++ [listEv, Event.storeAppend newAssistantMessage]
                 ++ renameEvents activeThread userInput
                 ++ webhookEvents config gw,
               .ok ())
            | none =>
              (sendEv :: runEv :: pollEvs ++ [listEv], .error .noReplyFound)
        else if runStatus == .failed then
          (sendEv :: runEv :: pollEvs, .error .runFailed)
        else if runStatus == .cancelled then
          (sendEv :: runEv :: pollEvs, .error .runCancelled)
        else
          (sendEv :: runEv :: pollEvs, .error .runTimedOut)

/-- `conversationHistory.slice(-10)` of the direct path: the last 10
elements (all of them when fewer exist). -/
def sliceLastTen (l : List Chat.ChatEntry) : List Chat.ChatEntry :=
  l.drop (l.length - 10)

/-- `handleDirectCompletionWorkflow` (ChatInterface.tsx lines 181–233).
`threadMessages` is the component's render-time snapshot of the active
thread's messages (oldest first, and not yet containing the user message
this turn appended: the closure captured the pre-append render value). -/
def handleDirectCompletionWorkflow (config : Chat.Configuration)
    (activeThread : Chat.Thread) (threadMessages : List Chat.Message)
    (gw : Gateway) (userInput : String) (ts : String) :
    List Event × Except TurnError Unit :=
  let conversationHistory : List Chat.ChatEntry :=
    threadMessages.map (fun msg => { role := msg.role, content := msg.content })
  let limitedHistory := sliceLastTen conversationHistory
  let history := limitedHistory ++ [{ role := .user, content := userInput }]
  let callEv := Event.gwCall (GwCall.completion history)
  match gw.completionResult with
  | .error e => ([callEv], .error (.gatewayError e))
  | .ok response =>
    let assistantResponse := completionText response
    if isTruthyStr assistantResponse then
      let newAssistantMessage : Chat.Message :=
        { threadId := activeThread.threadId,
          content := assistantResponse.getD "", role := .assistant,
          timestamp := ts, attachments := [] }
      ([callEv, Event.storeAppend newAssistantMessage]
         ++ renameEvents activeThread userInput
         ++ webhookEvents config gw,
       .ok ())
    else ([callEv], .error .emptyCompletion)

/-- JavaScript `String.prototype.trim`: strip leading and trailing
whitespace (used by the validation guard `!input.trim()`).  Written out
over the character list so that it evaluates by kernel reduction. -/
def trimWs (s : String) : String :=
  String.mk
    (((s.toList.dropWhile Char.isWhitespace).reverse.dropWhile
        Char.isWhitespace).reverse)

/-- `handleSendMessage` (ChatInterface.tsx lines 39–77): the whole turn.
`activeThread`/`activeConfiguration` are `Option`s, matching the nullable
store fields; the validation guard is
`if (!input.trim() || !activeThread || !activeConfiguration) return;`. -/
def handleSendMessage (input : String) (activeThread : Option Chat.Thread)
    (activeConfiguration : Option Chat.Configuration)
    (threadMessages : List Chat.Message) (fileAttachmentCount : Nat)
    (gw : Gateway) (ts : String) : List Event × Outcome :=
  match activeThread, activeConfiguration with
  | some thread, some config =>
    if trimWs input == "" then ([], .noOp)
    else
      -- the user message is appended to the store before any gateway call
      let userMessage : Chat.Message :=
        { threadId := thread.threadId, content := input, role := .user,
          timestamp := ts, attachments := [] }
      -- `if (activeConfiguration.useAssistantApi && activeConfiguration.assistantId)`
      let w :=
        if config.useAssistantApi && config.assistantId != "" then
          handleAssistantWorkflow config thread fileAttachmentCount gw input ts
        else
          handleDirectCompletionWorkflow config thread threadMessages gw input ts
      (Event.storeAppend userMessage :: w.1,
       match w.2 with
       | .ok _ => .completed
       | .error e => .failed e)
  | _, _ => ([], .noOp)

/-- Messages appended to the store during the turn, in order. -/
def appendedMessages (events : List Event) : List Chat.Message :=
  events.filterMap (fun e =>
    match e with
    | .storeAppend m => some m
    | _ => none)

/-- Gateway calls issued during the turn, in order. -/
def gwCalls (events : List Event) : List GwCall :=
  events.filterMap (fun e =>
    match e with
    | .gwCall c => some c
    | _ => none)

def isPollCall : GwCall → Bool
  | .pollRun _ _ => true
  | _ => false

def isListCall : GwCall → Bool
  | .listMessages _ => true
  | _ => false

def isPollEvent : Event → Bool
  | .gwCall c => isPollCall c
  | _ => false

def isListEvent : Event → Bool
  | .gwCall c => isListCall c
  | _ => false

def isAssistantAppendEvent : Event → Bool
  | .storeAppend m => m.role == Chat.Role.assistant
  | _ => false

def isGwCallEvent : Event → Bool
  | .gwCall _ => true
  | _ => false

def isRenameEvent : Event → Bool
  | .storeRename _ => true
  | _ => false

/-- How many `checkRunStatus` (run-status) reads the turn issued. -/
def countPollCalls (events : List Event) : Nat :=
  events.countP (fun e => isPollEvent e)

/-- How many `getMessages` (list-messages) calls the turn issued. -/
def countListCalls (events : List Event) : Nat :=
  events.countP (fun e => isListEvent e)

/-- How many assistant-authored messages the turn appended to the store. -/
def assistantAppendCount (events : List Event) : Nat :=
  events.countP (fun e => isAssistantAppendEvent e)

/-- The attachment discipline: a store append carries no attachments and a
posted message payload carries no `file_ids` field. -/
def eventAttachmentsOk : Event → Bool
  | .storeAppend m => m.attachments.isEmpty
  | .gwCall (.sendMsg _ _ fileIdsField) => fileIdsField.isNone
  | _ => true

/-- 1 when a workflow resolved a reply, 0 when it threw. -/
def successCount (r : Except TurnError Unit) : Nat :=
  match r with
  | .ok _ => 1
  | .error _ => 0

/-- 1 when the turn completed, 0 otherwise. -/
def outcomeSuccessCount : Outcome → Nat
  | .completed => 1
  | _ => 0

/-- Modelled from the spec: "the most recently added assistant-authored
entry" of a fetched message list — the assistant entry with the greatest
provider creation time, independent of list order.  Written from the
spec's words, for comparison with the source's positional `find`. -/
def mostRecentAssistant (msgs : List Chat.ApiMessage) :
    Option Chat.ApiMessage :=
  (msgs.filter (fun m => m.role == Chat.Role.assistant)).foldl
    (fun acc m =>
      match acc with
      | none => some m
      | some b => if b.created_at < m.created_at then some m else some b)
    none

/-- A sample assisted-mode configuration with a webhook target. -/
def sampleConfig : Chat.Configuration :=
  { apiKey := "sk-test", assistantId := "asst_1", vectorStoreId := "",
    model := "gpt-4", isDefault := true, name := "Configuration 1",
    webhookURL := "https://example.com/hook", useAssistantApi := true }

/-- The same configuration in direct mode (no assistant identifier). -/
def sampleDirectConfig : Chat.Configuration :=
  { sampleConfig with useAssistantApi := false, assistantId := "" }

/-- A thread still carrying its system-assigned default name. -/
def sampleThread : Chat.Thread :=
  { threadId := "thread_1", name := defaultThreadName 0, createdAt := "t0",
    lastUpdated := "t0", isActive := true }

/-- A thread already renamed to a custom name. -/
def customThread : Chat.Thread :=
  { sampleThread with name := "my custom topic" }

/-- Poll oracle answering a fixed status sequence, `completed` afterwards. -/
def seqPoll (l : List Chat.RunStatus) : Nat → Except String Chat.RunStatus :=
  fun i => .ok (l.getD i .completed)

/-- An oldest-first fetched message list with two assistant entries: the
entry created later (`created_at = 2`) sits at the back. -/
def oldestFirstData : List Chat.ApiMessage :=
  [ { id := "m1", created_at := 1, role := .assistant,
      content := [{ ty := "text", text := some "old" }] },
    { id := "m2", created_at := 2, role := .assistant,
      content := [{ ty := "text", text := some "new" }] } ]

/-- Gateway oracle: run starts `queued`, polls answer
`queued, in_progress, in_progress, completed`, the message list is
`oldestFirstData`, the direct completion replies `"Hi there"`. -/
def sampleGateway : Gateway :=
  { sendMessageResult := .ok "msg_1",
    startRunResult := .ok { id := "run_1", status := .queued },
    pollResult := seqPoll [.queued, .in_progress, .in_progress, .completed],
    listResult := .ok oldestFirstData,
    completionResult := .ok { choices :=
      [{ index := 0, messageRole := "assistant",
         messageContent := "Hi there", finish_reason := "stop" }] },
    webhookPost := .ok () }

/-- Gateway oracle whose run never leaves `in_progress`. -/
def timeoutGateway : Gateway :=
  { sampleGateway with
    startRunResult := .ok { id := "run_1", status := .queued },
    pollResult := fun _ => .ok .in_progress }

/-- Gateway oracle whose run is already `completed` when `runAssistant`
returns. -/
def terminalStartGateway : Gateway :=
  { sampleGateway with
    startRunResult := .ok { id := "run_1", status := .completed } }

/-! ## Lemmas about the polling loop -/

theorem pollLoopGo_count_le (poll : Nat → Except String Chat.RunStatus) :
    ∀ (f : Nat) (s : Chat.RunStatus) (c : Nat),
      (pollLoopGo poll s c f).2 ≤ c + f := by
  intro f
  induction f with
  | zero =>
    intro s c
    rw [pollLoopGo.eq_def]
    by_cases h : isTerminal s = true <;> simp [h]
  | succ f ih =>
    intro s c
    rw [pollLoopGo.eq_def]
    by_cases h : isTerminal s = true
    · simp [h]
    · simp only [h, if_false, Bool.false_eq_true]
      cases hp : poll c with
      | error e => simp
      | ok s' =>
        simp only
        have := ih s' (c + 1)
        omega

theorem pollLoopGo_terminal (poll : Nat → Except String Chat.RunStatus)
    (s : Chat.RunStatus) (c f : Nat) (h : isTerminal s = true) :
    pollLoopGo poll s c f = (.ok s, c) := by
  rw [pollLoopGo.eq_def]; simp [h]

theorem pollLoopGo_count_ge (poll : Nat → Except String Chat.RunStatus) :
    ∀ (f : Nat) (s : Chat.RunStatus) (c : Nat),
      c ≤ (pollLoopGo poll s c f).2 := by
  intro f
  induction f with
  | zero =>
    intro s c
    rw [pollLoopGo.eq_def]
    by_cases h : isTerminal s = true <;> simp [h]
  | succ f ih =>
    intro s c
    rw [pollLoopGo.eq_def]
    by_cases h : isTerminal s = true
    · simp [h]
    · simp only [h, if_false, Bool.false_eq_true]
      cases hp : poll c with
      | error e => simp
      | ok s' =>
        simp only
        have := ih s' (c + 1)
        omega

theorem pollLoopGo_progress (poll : Nat → Except String Chat.RunStatus)
    (s : Chat.RunStatus) (c f : Nat) (h : isTerminal s = false) (hf : 0 < f) :
    c + 1 ≤ (pollLoopGo poll s c f).2 := by
  cases f with
  | zero => omega
  | succ f =>
    rw [pollLoopGo.eq_def]
    simp only [h, if_false, Bool.false_eq_true]
    cases hp : poll c with
    | error e => simp
    | ok s' =>
      simp only
      exact pollLoopGo_count_ge poll f s' (c + 1)

theorem pollLoopGo_step (poll : Nat → Except String Chat.RunStatus)
    (s s' : Chat.RunStatus) (c f : Nat) (h : isTerminal s = false)
    (hp : poll c = .ok s') :
    pollLoopGo poll s c (f + 1) = pollLoopGo poll s' (c + 1) f := by
  rw [pollLoopGo.eq_def]
  simp [h, hp]

/-- With startup status non-terminal and successive reads
`queued, in_progress, in_progress, completed`, the loop reads the status
exactly 4 times and ends on `completed`. -/
theorem pollLoop_four (poll : Nat → Except String Chat.RunStatus)
    (s0 : Chat.RunStatus) (hnt : isTerminal s0 = false)
    (h0 : poll 0 = .ok .queued) (h1 : poll 1 = .ok .in_progress)
    (h2 : poll 2 = .ok .in_progress) (h3 : poll 3 = .ok .completed) :
    pollLoop poll s0 60 = (.ok .completed, 4) := by
  show pollLoopGo poll s0 0 (59 + 1) = (.ok .completed, 4)
  rw [pollLoopGo_step poll s0 _ 0 59 hnt h0]
  show pollLoopGo poll _ 1 (58 + 1) = (.ok .completed, 4)
  rw [pollLoopGo_step poll _ _ 1 58 (by decide) h1]
  show pollLoopGo poll _ 2 (57 + 1) = (.ok .completed, 4)
  rw [pollLoopGo_step poll _ _ 2 57 (by decide) h2]
  show pollLoopGo poll _ 3 (56 + 1) = (.ok .completed, 4)
  rw [pollLoopGo_step poll _ _ 3 56 (by decide) h3]
  exact pollLoopGo_terminal poll _ 4 56 (by decide)

theorem countP_replicate (p : α → Bool) (a : α) (n : Nat) :
    (List.replicate n a).countP p = if p a then n else 0 := by
  induction n with
  | zero => simp
  | succ n ih =>
    simp [List.replicate_succ, List.countP_cons, ih]
    split <;> omega

theorem all_replicate_of (p : α → Bool) (a : α) (n : Nat) (h : p a = true) :
    (List.replicate n a).all p = true := by
  induction n with
  | zero => simp
  | succ n ih => simp [List.replicate_succ, h, ih]

theorem filter_replicate_of_neg (p : α → Bool) (a : α) (n : Nat) (h : p a = false) :
    (List.replicate n a).filter p = [] := by
  induction n with
  | zero => simp
  | succ n ih => simp [List.replicate_succ, h, ih]

theorem filterMap_replicate_of_some (f : α → Option β) (a : α) (b : β)
    (h : f a = some b) (n : Nat) :
    (List.replicate n a).filterMap f = List.replicate n b := by
  induction n with
  | zero => simp
  | succ n ih => simp [List.replicate_succ, h, ih]

theorem payload_fileIds_eq_none (fc : Nat) :
    sendMessagePayloadFileIds (if 0 < fc then some ([] : List String) else none) = none := by
  split <;> simp [sendMessagePayloadFileIds]

theorem assisted_poll_count_le (config : Chat.Configuration)
    (t : Chat.Thread) (fc : Nat) (gw : Gateway) (input ts : String) :
    countPollCalls (handleAssistantWorkflow config t fc gw input ts).1 ≤ 60 := by
  unfold handleAssistantWorkflow
  cases hs : gw.sendMessageResult with
  | error e =>
    simp [countPollCalls, List.countP_cons, isPollEvent, isPollCall]
  | ok mid =>
    cases hr : gw.startRunResult with
    | error e =>
      simp [countPollCalls, List.countP_cons, isPollEvent, isPollCall]
    | ok run =>
      simp only
      have hle : (pollLoop gw.pollResult run.status 60).2 ≤ 60 :=
        pollLoopGo_count_le gw.pollResult 60 run.status 0
      generalize hp : pollLoop gw.pollResult run.status 60 = polled at hle
      obtain ⟨pres, pc⟩ := polled
      simp only at hle
      cases pres with
      | error e =>
        simp [countPollCalls, List.countP_cons, List.countP_append,
          countP_replicate, isPollEvent, isPollCall]
        omega
      | ok st =>
        cases st <;>
          simp only [beq_iff_eq, reduceCtorEq, if_false, if_true, reduceIte] <;>
          try (simp [countPollCalls, List.countP_cons, List.countP_append,
            countP_replicate, isPollEvent, isPollCall]; omega)
        cases hl : gw.listResult with
        | error e =>
          simp [countPollCalls, List.countP_cons, List.countP_append,
            countP_replicate, isPollEvent, isPollCall]
          omega
        | ok data =>
          cases hf : data.find? (fun m => m.role == Chat.Role.assistant) with
          | none =>
            simp [hf, countPollCalls, List.countP_cons, List.countP_append,
              countP_replicate, isPollEvent, isPollCall]
            omega
          | some am =>
            simp only [hf, payload_fileIds_eq_none, renameEvents, webhookEvents]
            split <;> split <;>
              simp [countPollCalls, List.countP_cons, List.countP_append,
                countP_replicate, isPollEvent, isPollCall] <;> omega


theorem all_attach_replicate_poll (tid rid : String) (n : Nat) :
    ((List.replicate n (Event.gwCall (GwCall.pollRun tid rid))).all
      fun e => eventAttachmentsOk e) = true :=
  all_replicate_of _ _ n rfl

theorem rename_filter_replicate_poll (tid rid : String) (n : Nat) :
    (List.replicate n (Event.gwCall (GwCall.pollRun tid rid))).filter
      (fun e => isRenameEvent e) = [] :=
  filter_replicate_of_neg _ _ n rfl

theorem pollLoop_terminal (poll : Nat → Except String Chat.RunStatus)
    (s : Chat.RunStatus) (maxPolls : Nat) (h : isTerminal s = true) :
    pollLoop poll s maxPolls = (.ok s, 0) :=
  pollLoopGo_terminal poll s 0 maxPolls h

theorem assisted_poll_count_zero_of_terminal (config : Chat.Configuration)
    (t : Chat.Thread) (fc : Nat) (gw : Gateway) (input ts : String)
    (run : Chat.RunObj) (hr : gw.startRunResult = .ok run)
    (hterm : isTerminal run.status = true) :
    countPollCalls (handleAssistantWorkflow config t fc gw input ts).1 = 0 := by
  unfold handleAssistantWorkflow
  cases hs : gw.sendMessageResult with
  | error e => simp [countPollCalls, List.countP_cons, isPollEvent, isPollCall]
  | ok mid =>
    rw [hr]
    simp only
    rw [pollLoop_terminal gw.pollResult run.status 60 hterm]
    obtain ⟨rid, rst⟩ := run
    simp only at hterm
    cases rst <;> try (exact absurd hterm (by decide))
    · -- completed
      cases hl : gw.listResult with
      | error e =>
        simp [countPollCalls, List.countP_cons, List.countP_append,
          isPollEvent, isPollCall]
      | ok data =>
        cases hf : data.find? (fun m => m.role == Chat.Role.assistant) with
        | none =>
          simp [hf, countPollCalls, List.countP_cons, List.countP_append,
            isPollEvent, isPollCall]
        | some am =>
          simp only [hf, payload_fileIds_eq_none, renameEvents, webhookEvents]
          split <;> split <;>
            simp [countPollCalls, List.countP_cons, List.countP_append,
              isPollEvent, isPollCall]
    · -- failed
      simp [countPollCalls, List.countP_cons, isPollEvent, isPollCall]
    · -- cancelled
      simp [countPollCalls, List.countP_cons, isPollEvent, isPollCall]

theorem assisted_timeout_of_cap (config : Chat.Configuration)
    (t : Chat.Thread) (fc : Nat) (gw : Gateway) (input ts mid : String)
    (run : Chat.RunObj) (st : Chat.RunStatus) (n : Nat)
    (hs : gw.sendMessageResult = .ok mid) (hr : gw.startRunResult = .ok run)
    (hp : pollLoop gw.pollResult run.status 60 = (.ok st, n))
    (hnt : isTerminal st = false) :
    (handleAssistantWorkflow config t fc gw input ts).2 = .error .runTimedOut := by
  unfold handleAssistantWorkflow
  rw [hs, hr]
  simp only [hp]
  cases st <;> simp_all [isTerminal]

theorem assisted_attach_violation_count (config : Chat.Configuration)
    (t : Chat.Thread) (fc : Nat) (gw : Gateway) (input ts : String) :
    ((handleAssistantWorkflow config t fc gw input ts).1.countP
      fun e => !eventAttachmentsOk e) = 0 := by
  unfold handleAssistantWorkflow
  cases hs : gw.sendMessageResult with
  | error e =>
    simp [eventAttachmentsOk, payload_fileIds_eq_none, List.countP_cons]
  | ok mid =>
    cases hr : gw.startRunResult with
    | error e =>
      simp [eventAttachmentsOk, payload_fileIds_eq_none, List.countP_cons]
    | ok run =>
      simp only
      generalize hp : pollLoop gw.pollResult run.status 60 = polled
      obtain ⟨pres, pc⟩ := polled
      cases pres with
      | error e =>
        simp [eventAttachmentsOk, payload_fileIds_eq_none, List.countP_cons,
          List.countP_append, countP_replicate]
      | ok st =>
        cases st <;>
          simp only [beq_iff_eq, reduceCtorEq, if_false, if_true, reduceIte] <;>
          try (simp [eventAttachmentsOk, payload_fileIds_eq_none,
            List.countP_cons, List.countP_append, countP_replicate])
        cases hl : gw.listResult with
        | error e =>
          simp [eventAttachmentsOk, payload_fileIds_eq_none, List.countP_cons,
            List.countP_append, countP_replicate]
          try (intro a ha; casesm* _ ∨ _, _ ∧ _ <;> simp_all [eventAttachmentsOk])
        | ok data =>
          cases hf : data.find? (fun m => m.role == Chat.Role.assistant) with
          | none =>
            simp [hf, eventAttachmentsOk, payload_fileIds_eq_none,
              List.countP_cons, List.countP_append, countP_replicate]
            try (intro a ha; casesm* _ ∨ _, _ ∧ _ <;> simp_all [eventAttachmentsOk])
          | some am =>
            simp only [hf, payload_fileIds_eq_none, renameEvents, webhookEvents]
            split <;> split <;>
              simp [eventAttachmentsOk, List.countP_cons, List.countP_append,
                countP_replicate] <;>
              try (intro a ha; casesm* _ ∨ _, _ ∧ _ <;> simp_all [eventAttachmentsOk])

theorem assisted_rename_filter (config : Chat.Configuration)
    (t : Chat.Thread) (fc : Nat) (gw : Gateway) (input ts : String) :
    (handleAssistantWorkflow config t fc gw input ts).1.filter
        (fun e => isRenameEvent e) =
      (if successCount (handleAssistantWorkflow config t fc gw input ts).2 = 1
       then renameEvents t input else []) := by
  unfold handleAssistantWorkflow
  cases hs : gw.sendMessageResult with
  | error e => simp [successCount, isRenameEvent]
  | ok mid =>
    cases hr : gw.startRunResult with
    | error e => simp [successCount, isRenameEvent]
    | ok run =>
      simp only
      generalize hp : pollLoop gw.pollResult run.status 60 = polled
      obtain ⟨pres, pc⟩ := polled
      cases pres with
      | error e =>
        simp [successCount, isRenameEvent, rename_filter_replicate_poll]
      | ok st =>
        cases st <;>
          simp only [beq_iff_eq, reduceCtorEq, if_false, if_true, reduceIte] <;>
          try (simp [successCount, isRenameEvent, rename_filter_replicate_poll])
        cases hl : gw.listResult with
        | error e =>
          simp [successCount, isRenameEvent, rename_filter_replicate_poll]
        | ok data =>
          cases hf : data.find? (fun m => m.role == Chat.Role.assistant) with
          | none =>
            simp [hf, successCount, isRenameEvent, rename_filter_replicate_poll]
          | some am =>
            simp only [hf, renameEvents, webhookEvents]
            split <;> split <;>
              simp [successCount, isRenameEvent, rename_filter_replicate_poll]

theorem assisted_outcome_webhook_indep (config : Chat.Configuration)
    (t : Chat.Thread) (fc : Nat) (gw : Gateway) (input ts : String)
    (p : Except String Unit) :
    (handleAssistantWorkflow config t fc { gw with webhookPost := p } input ts).2 =
      (handleAssistantWorkflow config t fc gw input ts).2 := by
  obtain ⟨sm, sr, pr, lr, cr, wp⟩ := gw
  unfold handleAssistantWorkflow
  cases sm with
  | error e => rfl
  | ok mid =>
    cases sr with
    | error e => rfl
    | ok run =>
      simp only
      generalize hp : pollLoop pr run.status 60 = polled
      obtain ⟨pres, pc⟩ := polled
      cases pres with
      | error e => rfl
      | ok st =>
        cases st <;> try rfl
        cases lr with
        | error e => rfl
        | ok data =>
          cases hf : data.find? (fun m => m.role == Chat.Role.assistant) with
          | none => simp [hf]
          | some am => simp [hf]


theorem direct_assistant_count (config : Chat.Configuration)
    (t : Chat.Thread) (msgs : List Chat.Message) (gw : Gateway)
    (input ts : String) :
    assistantAppendCount
        (handleDirectCompletionWorkflow config t msgs gw input ts).1 =
      successCount (handleDirectCompletionWorkflow config t msgs gw input ts).2 := by
  unfold handleDirectCompletionWorkflow
  cases hc : gw.completionResult with
  | error e =>
    simp [assistantAppendCount, successCount, List.countP_cons, isAssistantAppendEvent]
  | ok response =>
    simp only
    by_cases htr : isTruthyStr (completionText response) = true
    · simp only [htr, if_true, renameEvents, webhookEvents]
      split <;> split <;>
        simp [assistantAppendCount, successCount, List.countP_cons,
          List.countP_append, isAssistantAppendEvent]
    · simp only [Bool.not_eq_true] at htr
      simp [htr, assistantAppendCount, successCount, List.countP_cons,
        isAssistantAppendEvent]

theorem direct_attach_violation_count (config : Chat.Configuration)
    (t : Chat.Thread) (msgs : List Chat.Message) (gw : Gateway)
    (input ts : String) :
    ((handleDirectCompletionWorkflow config t msgs gw input ts).1.countP
      fun e => !eventAttachmentsOk e) = 0 := by
  unfold handleDirectCompletionWorkflow
  cases hc : gw.completionResult with
  | error e => simp [eventAttachmentsOk, List.countP_cons]
  | ok response =>
    simp only
    by_cases htr : isTruthyStr (completionText response) = true
    · simp only [htr, if_true, renameEvents, webhookEvents]
      split <;> split <;>
        simp [eventAttachmentsOk, List.countP_cons, List.countP_append]
    · simp only [Bool.not_eq_true] at htr
      simp [htr, eventAttachmentsOk, List.countP_cons]

theorem direct_rename_filter (config : Chat.Configuration)
    (t : Chat.Thread) (msgs : List Chat.Message) (gw : Gateway)
    (input ts : String) :
    (handleDirectCompletionWorkflow config t msgs gw input ts).1.filter
        (fun e => isRenameEvent e) =
      (if successCount (handleDirectCompletionWorkflow config t msgs gw input ts).2 = 1
       then renameEvents t input else []) := by
  unfold handleDirectCompletionWorkflow
  cases hc : gw.completionResult with
  | error e => simp [successCount, isRenameEvent]
  | ok response =>
    simp only
    by_cases htr : isTruthyStr (completionText response) = true
    · simp only [htr, if_true, renameEvents, webhookEvents]
      split <;> split <;> simp [successCount, isRenameEvent]
    · simp only [Bool.not_eq_true] at htr
      simp [htr, successCount, isRenameEvent]

theorem direct_outcome_webhook_indep (config : Chat.Configuration)
    (t : Chat.Thread) (msgs : List Chat.Message) (gw : Gateway)
    (input ts : String) (p : Except String Unit) :
    (handleDirectCompletionWorkflow config t msgs { gw with webhookPost := p } input ts).2 =
      (handleDirectCompletionWorkflow config t msgs gw input ts).2 := by
  obtain ⟨sm, sr, pr, lr, cr, wp⟩ := gw
  unfold handleDirectCompletionWorkflow
  cases cr with
  | error e => rfl
  | ok response =>
    simp only
    by_cases htr : isTruthyStr (completionText response) = true
    · simp [htr]
    · simp only [Bool.not_eq_true] at htr
      simp [htr]

theorem direct_gwCalls (config : Chat.Configuration)
    (t : Chat.Thread) (msgs : List Chat.Message) (gw : Gateway)
    (input ts : String) :
    gwCalls (handleDirectCompletionWorkflow config t msgs gw input ts).1 =
      [GwCall.completion
        ((msgs.map fun msg =>
            ({ role := msg.role, content := msg.content } : Chat.ChatEntry)).drop
              ((msgs.map fun msg =>
                ({ role := msg.role, content := msg.content } : Chat.ChatEntry)).length - 10)
          ++ [{ role := Chat.Role.user, content := input }])] := by
  unfold handleDirectCompletionWorkflow sliceLastTen
  cases hc : gw.completionResult with
  | error e => simp [gwCalls]
  | ok response =>
    simp only
    by_cases htr : isTruthyStr (completionText response) = true
    · simp only [htr, if_true, renameEvents, webhookEvents]
      split <;> split <;> simp [gwCalls]
    · simp only [Bool.not_eq_true] at htr
      simp [htr, gwCalls]


theorem assisted_assistant_count (config : Chat.Configuration)
    (t : Chat.Thread) (fc : Nat) (gw : Gateway) (input ts : String) :
    assistantAppendCount (handleAssistantWorkflow config t fc gw input ts).1 =
      successCount (handleAssistantWorkflow config t fc gw input ts).2 := by
  unfold handleAssistantWorkflow
  cases hs : gw.sendMessageResult with
  | error e =>
    simp [assistantAppendCount, successCount, List.countP_cons, isAssistantAppendEvent]
  | ok mid =>
    cases hr : gw.startRunResult with
    | error e =>
      simp [assistantAppendCount, successCount, List.countP_cons, isAssistantAppendEvent]
    | ok run =>
      simp only
      generalize hp : pollLoop gw.pollResult run.status 60 = polled
      obtain ⟨pres, pc⟩ := polled
      cases pres with
      | error e =>
        simp [assistantAppendCount, successCount, List.countP_cons, List.countP_append,
          countP_replicate, isAssistantAppendEvent]
      | ok st =>
        cases st <;>
          simp only [beq_iff_eq, reduceCtorEq, if_false, if_true, reduceIte] <;>
          try (simp [assistantAppendCount, successCount, List.countP_cons, List.countP_append,
            countP_replicate, isAssistantAppendEvent])
        cases hl : gw.listResult with
        | error e =>
          simp [assistantAppendCount, successCount, List.countP_cons, List.countP_append,
            countP_replicate, isAssistantAppendEvent]
        | ok data =>
          cases hf : data.find? (fun m => m.role == Chat.Role.assistant) with
          | none =>
            simp [hf, assistantAppendCount, successCount, List.countP_cons, List.countP_append,
              countP_replicate, isAssistantAppendEvent]
          | some am =>
            simp only [hf]
            simp [assistantAppendCount, successCount, List.countP_cons, List.countP_append,
              countP_replicate, isAssistantAppendEvent, renameEvents, webhookEvents]

theorem turn_assistant_count (input : String) (t : Chat.Thread)
    (config : Chat.Configuration) (msgs : List Chat.Message) (fc : Nat)
    (gw : Gateway) (ts : String) :
    assistantAppendCount
        (handleSendMessage input (some t) (some config) msgs fc gw ts).1 =
      outcomeSuccessCount
        (handleSendMessage input (some t) (some config) msgs fc gw ts).2 := by
  unfold handleSendMessage
  by_cases hin : (trimWs input == "") = true
  · simp [hin, assistantAppendCount, outcomeSuccessCount]
  · simp only [hin, Bool.false_eq_true, if_false, reduceIte]
    by_cases hmode : (config.useAssistantApi && config.assistantId != "") = true
    · have hm := assisted_assistant_count config t fc gw input ts
      simp only [hmode, if_true, reduceIte]
      cases hw : (handleAssistantWorkflow config t fc gw input ts).2 with
      | ok u =>
        rw [hw] at hm
        cases u
        simp [assistantAppendCount, outcomeSuccessCount, List.countP_cons,
          isAssistantAppendEvent, successCount] at hm ⊢
        exact hm
      | error e =>
        rw [hw] at hm
        simp [assistantAppendCount, outcomeSuccessCount, List.countP_cons,
          isAssistantAppendEvent, successCount] at hm ⊢
        exact hm
    · have hm := direct_assistant_count config t msgs gw input ts
      simp only [hmode, Bool.false_eq_true, if_false, reduceIte]
      cases hw : (handleDirectCompletionWorkflow config t msgs gw input ts).2 with
      | ok u =>
        rw [hw] at hm
        cases u
        simp [assistantAppendCount, outcomeSuccessCount, List.countP_cons,
          isAssistantAppendEvent, successCount] at hm ⊢
        exact hm
      | error e =>
        rw [hw] at hm
        simp [assistantAppendCount, outcomeSuccessCount, List.countP_cons,
          isAssistantAppendEvent, successCount] at hm ⊢
        exact hm

theorem turn_attach_violation_count (input : String)
    (tOpt : Option Chat.Thread) (cOpt : Option Chat.Configuration)
    (msgs : List Chat.Message) (fc : Nat) (gw : Gateway) (ts : String) :
    ((handleSendMessage input tOpt cOpt msgs fc gw ts).1.countP
      fun e => !eventAttachmentsOk e) = 0 := by
  unfold handleSendMessage
  cases tOpt with
  | none => simp
  | some t =>
    cases cOpt with
    | none => simp
    | some config =>
      by_cases hin : (trimWs input == "") = true
      · simp [hin]
      · simp only [hin, Bool.false_eq_true, if_false, reduceIte]
        by_cases hmode : (config.useAssistantApi && config.assistantId != "") = true
        · have hm := assisted_attach_violation_count config t fc gw input ts
          simp only [hmode, if_true, reduceIte]
          simp [List.countP_cons, eventAttachmentsOk]
          intro a ha
          have h0 := List.countP_eq_zero.mp hm a ha
          simpa using h0
        · have hm := direct_attach_violation_count config t msgs gw input ts
          simp only [hmode, Bool.false_eq_true, if_false, reduceIte]
          simp [List.countP_cons, eventAttachmentsOk]
          intro a ha
          have h0 := List.countP_eq_zero.mp hm a ha
          simpa using h0

theorem turn_rename_filter (input : String) (t : Chat.Thread)
    (config : Chat.Configuration) (msgs : List Chat.Message) (fc : Nat)
    (gw : Gateway) (ts : String) :
    (handleSendMessage input (some t) (some config) msgs fc gw ts).1.filter
        (fun e => isRenameEvent e) =
      (if (handleSendMessage input (some t) (some config) msgs fc gw ts).2 =
          Outcome.completed
       then renameEvents t input else []) := by
  unfold handleSendMessage
  by_cases hin : (trimWs input == "") = true
  · simp [hin]
  · simp only [hin, Bool.false_eq_true, if_false, reduceIte]
    by_cases hmode : (config.useAssistantApi && config.assistantId != "") = true
    · have hm := assisted_rename_filter config t fc gw input ts
      simp only [hmode, if_true, reduceIte]
      cases hw : (handleAssistantWorkflow config t fc gw input ts).2 with
      | ok u =>
        rw [hw] at hm
        cases u
        simp [successCount, isRenameEvent] at hm ⊢
        exact hm
      | error e =>
        rw [hw] at hm
        simp [successCount, isRenameEvent] at hm ⊢
        exact hm
    · have hm := direct_rename_filter config t msgs gw input ts
      simp only [hmode, Bool.false_eq_true, if_false, reduceIte]
      cases hw : (handleDirectCompletionWorkflow config t msgs gw input ts).2 with
      | ok u =>
        rw [hw] at hm
        cases u
        simp [successCount, isRenameEvent] at hm ⊢
        exact hm
      | error e =>
        rw [hw] at hm
        simp [successCount, isRenameEvent] at hm ⊢
        exact hm

theorem turn_outcome_webhook_indep (input : String)
    (tOpt : Option Chat.Thread) (cOpt : Option Chat.Configuration)
    (msgs : List Chat.Message) (fc : Nat) (gw : Gateway) (ts : String)
    (p : Except String Unit) :
    (handleSendMessage input tOpt cOpt msgs fc { gw with webhookPost := p } ts).2 =
      (handleSendMessage input tOpt cOpt msgs fc gw ts).2 := by
  unfold handleSendMessage
  cases tOpt with
  | none => rfl
  | some t =>
    cases cOpt with
    | none => rfl
    | some config =>
      by_cases hin : (trimWs input == "") = true
      · simp [hin]
      · simp only [hin, Bool.false_eq_true, if_false, reduceIte]
        by_cases hmode : (config.useAssistantApi && config.assistantId != "") = true
        · simp only [hmode, if_true, reduceIte,
            assisted_outcome_webhook_indep config t fc gw input ts p]
        · simp only [hmode, Bool.false_eq_true, if_false, reduceIte,
            direct_outcome_webhook_indep config t msgs gw input ts p]


theorem filterMap_replicate_of_none (f : α → Option β) (a : α)
    (h : f a = none) (n : Nat) :
    (List.replicate n a).filterMap f = [] := by
  induction n with
  | zero => simp
  | succ n ih => simp [List.replicate_succ, h, ih]

theorem filter_replicate_of_pos (p : α → Bool) (a : α) (n : Nat)
    (h : p a = true) :
    (List.replicate n a).filter p = List.replicate n a := by
  induction n with
  | zero => simp
  | succ n ih => simp [List.replicate_succ, h, ih]

/-- C6: the webhook notification never throws (it returns a boolean,
`false` on any delivery failure), and the turn's terminal outcome does not
depend on the webhook delivery result: a turn that reached `completed`
stays `completed` even if the notification fails. -/
theorem C6_webhook_best_effort :
    (∀ post : Except String Unit, ∃ b : Bool, sendWebhook post = .ok b)
    ∧ (∀ msg : String, sendWebhook (.error msg) = .ok false)
    ∧ (∀ (input : String) (tOpt : Option Chat.Thread)
        (cOpt : Option Chat.Configuration) (msgs : List Chat.Message)
        (fc : Nat) (gw : Gateway) (ts : String) (p p' : Except String Unit),
        (handleSendMessage input tOpt cOpt msgs fc
            { gw with webhookPost := p } ts).2 =
          (handleSendMessage input tOpt cOpt msgs fc
            { gw with webhookPost := p' } ts).2) := by
  refine ⟨fun post => ?_, fun msg => rfl,
    fun input tOpt cOpt msgs fc gw ts p p' => ?_⟩
  · cases post with
    | ok u => exact ⟨true, rfl⟩
    | error e => exact ⟨false, rfl⟩
  · calc (handleSendMessage input tOpt cOpt msgs fc
          { gw with webhookPost := p } ts).2
        = (handleSendMessage input tOpt cOpt msgs fc gw ts).2 :=
          turn_outcome_webhook_indep input tOpt cOpt msgs fc gw ts p
      _ = (handleSendMessage input tOpt cOpt msgs fc
            { gw with webhookPost := p' } ts).2 :=
          (turn_outcome_webhook_indep input tOpt cOpt msgs fc gw ts p').symm

/-- C7: once validation passes, the user's input message is the very first
store append of the turn — it is recorded before any gateway call — and it
stays recorded in the appended messages for every gateway behaviour,
including every failure path. -/
theorem C7_user_message_recorded_first (input : String) (t : Chat.Thread)
    (config : Chat.Configuration) (msgs : List Chat.Message) (fc : Nat)
    (gw : Gateway) (ts : String) (hne : trimWs input ≠ "") :
    (handleSendMessage input (some t) (some config) msgs fc gw ts).1.head? =
      some (Event.storeAppend
        { threadId := t.threadId, content := input, role := .user,
          timestamp := ts, attachments := [] })
    ∧ ({ threadId := t.threadId, content := input, role := .user,
         timestamp := ts, attachments := [] } : Chat.Message) ∈
        appendedMessages
          (handleSendMessage input (some t) (some config) msgs fc gw ts).1 := by
  unfold handleSendMessage
  have hin : (trimWs input == "") = false := by
    simpa using hne
  simp only [hin, Bool.false_eq_true, if_false, reduceIte]
  constructor
  · simp
  · simp [appendedMessages]

/-- C7 witness: validation passes for input `"Hello"` and the user message
is recorded first even though the gateway times the run out. -/
theorem C7_user_message_recorded_first_witness :
    (handleSendMessage "Hello" (some sampleThread) (some sampleConfig) [] 0
        timeoutGateway "t1").1.head? =
      some (Event.storeAppend
        { threadId := sampleThread.threadId, content := "Hello", role := .user,
          timestamp := "t1", attachments := [] }) :=
  (C7_user_message_recorded_first "Hello" sampleThread sampleConfig [] 0
    timeoutGateway "t1" (by decide)).1

/-- C8: every turn appends at most one assistant message to the store; a
turn that completes appends exactly one, and a turn that does not complete
(failure, timeout or validation no-op) appends none. -/
theorem C8_one_assistant_message (input : String)
    (tOpt : Option Chat.Thread) (cOpt : Option Chat.Configuration)
    (msgs : List Chat.Message) (fc : Nat) (gw : Gateway) (ts : String) :
    assistantAppendCount (handleSendMessage input tOpt cOpt msgs fc gw ts).1 ≤ 1
    ∧ ((handleSendMessage input tOpt cOpt msgs fc gw ts).2 = .completed →
        assistantAppendCount (handleSendMessage input tOpt cOpt msgs fc gw ts).1 = 1)
    ∧ ((handleSendMessage input tOpt cOpt msgs fc gw ts).2 ≠ .completed →
        assistantAppendCount (handleSendMessage input tOpt cOpt msgs fc gw ts).1 = 0) := by
  cases tOpt with
  | none =>
    refine ⟨?_, ?_, ?_⟩ <;> simp [handleSendMessage, assistantAppendCount]
  | some t =>
    cases cOpt with
    | none =>
      refine ⟨?_, ?_, ?_⟩ <;> simp [handleSendMessage, assistantAppendCount]
    | some config =>
      have hm := turn_assistant_count input t config msgs fc gw ts
      rw [hm]
      refine ⟨?_, ?_, ?_⟩
      · cases (handleSendMessage input (some t) (some config) msgs fc gw ts).2 <;>
          simp [outcomeSuccessCount]
      · intro h
        rw [h]
        rfl
      · intro h
        cases ho : (handleSendMessage input (some t) (some config) msgs fc gw ts).2 with
        | noOp => rfl
        | completed => exact absurd ho h
        | failed e => rfl

/-- C8 witness: the completed four-poll scenario appends exactly one
assistant message; the timed-out scenario appends none. -/
theorem C8_one_assistant_message_witness :
    assistantAppendCount
        (handleSendMessage "Hello" (some sampleThread) (some sampleConfig) [] 0
          sampleGateway "t1").1 = 1
    ∧ assistantAppendCount
        (handleSendMessage "Hello" (some sampleThread) (some sampleConfig) [] 0
          timeoutGateway "t1").1 = 0 :=
  ⟨(C8_one_assistant_message "Hello" (some sampleThread) (some sampleConfig) [] 0
      sampleGateway "t1").2.1 rfl,
   (C8_one_assistant_message "Hello" (some sampleThread) (some sampleConfig) [] 0
      timeoutGateway "t1").2.2 (by decide)⟩

/-- C9: a missing validation precondition — empty (or whitespace-only)
input, no active thread, or no resolved configuration — makes the turn a
strict no-op: no events at all (no store append, no gateway call, no
rename, no webhook) and the `noOp` outcome. -/
theorem C9_validation_noop (input : String) (tOpt : Option Chat.Thread)
    (cOpt : Option Chat.Configuration) (msgs : List Chat.Message) (fc : Nat)
    (gw : Gateway) (ts : String)
    (h : trimWs input = "" ∨ tOpt = none ∨ cOpt = none) :
    handleSendMessage input tOpt cOpt msgs fc gw ts = ([], .noOp) := by
  cases tOpt with
  | none => rfl
  | some t =>
    cases cOpt with
    | none => rfl
    | some config =>
      rcases h with h | h | h
      · simp [handleSendMessage, h]
      · exact absurd h (by simp)
      · exact absurd h (by simp)

/-- C9 witness: a whitespace-only input is a strict no-op. -/
theorem C9_validation_noop_witness :
    handleSendMessage "   " (some sampleThread) (some sampleConfig) [] 0
        sampleGateway "t1" = ([], .noOp) :=
  C9_validation_noop "   " (some sampleThread) (some sampleConfig) [] 0
    sampleGateway "t1" (Or.inl (by decide))

/-- C10: every message the turn appends to the store carries an empty
attachment list, and every posted-message payload omits the `file_ids`
field (the assisted path never transmits attachment identifiers), for
every input, gateway behaviour and number of selected file attachments. -/
theorem C10_no_attachments_transmitted (input : String)
    (tOpt : Option Chat.Thread) (cOpt : Option Chat.Configuration)
    (msgs : List Chat.Message) (fc : Nat) (gw : Gateway) (ts : String) :
    ((handleSendMessage input tOpt cOpt msgs fc gw ts).1.all
      fun e => eventAttachmentsOk e) = true := by
  rw [List.all_eq_true]
  intro a ha
  have h0 := List.countP_eq_zero.mp
    (turn_attach_violation_count input tOpt cOpt msgs fc gw ts) a ha
  simpa using h0


theorem gwCalls_cons_storeAppend (m : Chat.Message) (l : List Event) :
    gwCalls (Event.storeAppend m :: l) = gwCalls l := by
  simp [gwCalls]

/-- C1: in an assisted-mode turn the polling loop issues at most 60
run-status reads; a terminal status (`completed`, `failed`, `cancelled`)
stops polling immediately — already at startup, and at any point of the
loop — while any non-terminal status (including `requires_action` and
`expired`) makes the loop read again; and a run that is still non-terminal
when the loop ends yields the `runTimedOut` error, never `runFailed`. -/
theorem C1_polling_cap_and_timeout (config : Chat.Configuration)
    (t : Chat.Thread) (fc : Nat) (input ts : String) :
    (∀ gw : Gateway,
      countPollCalls (handleAssistantWorkflow config t fc gw input ts).1 ≤ 60)
    ∧ (∀ (gw : Gateway) (run : Chat.RunObj),
        gw.startRunResult = .ok run → isTerminal run.status = true →
        countPollCalls (handleAssistantWorkflow config t fc gw input ts).1 = 0)
    ∧ (∀ (poll : Nat → Except String Chat.RunStatus) (s : Chat.RunStatus)
        (c f : Nat), isTerminal s = true → pollLoopGo poll s c f = (.ok s, c))
    ∧ (∀ (poll : Nat → Except String Chat.RunStatus) (s : Chat.RunStatus)
        (c f : Nat), isTerminal s = false → 0 < f →
        c + 1 ≤ (pollLoopGo poll s c f).2)
    ∧ (∀ (gw : Gateway) (mid : String) (run : Chat.RunObj)
        (st : Chat.RunStatus) (n : Nat),
        gw.sendMessageResult = .ok mid → gw.startRunResult = .ok run →
        pollLoop gw.pollResult run.status 60 = (.ok st, n) →
        isTerminal st = false →
        (handleAssistantWorkflow config t fc gw input ts).2 =
            .error .runTimedOut
          ∧ (handleAssistantWorkflow config t fc gw input ts).2 ≠
            .error .runFailed) := by
  refine ⟨fun gw => assisted_poll_count_le config t fc gw input ts,
    fun gw run hr ht =>
      assisted_poll_count_zero_of_terminal config t fc gw input ts run hr ht,
    fun poll s c f h => pollLoopGo_terminal poll s c f h,
    fun poll s c f h hf => pollLoopGo_progress poll s c f h hf,
    fun gw mid run st n hs hr hp hnt => ?_⟩
  have h := assisted_timeout_of_cap config t fc gw input ts mid run st n hs hr hp hnt
  refine ⟨h, ?_⟩
  rw [h]
  simp

/-- C1 witness: with a run that never leaves `in_progress` the cap of 60
reads is respected and the turn ends timed out; a `completed` status stops
the loop at once; `requires_action` makes it continue. -/
theorem C1_polling_cap_and_timeout_witness :
    countPollCalls
        (handleAssistantWorkflow sampleConfig sampleThread 0 timeoutGateway
          "Hello" "t1").1 ≤ 60
    ∧ countPollCalls
        (handleAssistantWorkflow sampleConfig sampleThread 0
          terminalStartGateway "Hello" "t1").1 = 0
    ∧ pollLoopGo timeoutGateway.pollResult .completed 3 60 = (.ok .completed, 3)
    ∧ 3 + 1 ≤ (pollLoopGo timeoutGateway.pollResult .requires_action 3 57).2
    ∧ (handleAssistantWorkflow sampleConfig sampleThread 0 timeoutGateway
        "Hello" "t1").2 = .error .runTimedOut := by
  obtain ⟨h1, h2, h3, h4, h5⟩ :=
    C1_polling_cap_and_timeout sampleConfig sampleThread 0 "Hello" "t1"
  refine ⟨h1 timeoutGateway,
    h2 terminalStartGateway { id := "run_1", status := .completed } rfl (by decide),
    h3 timeoutGateway.pollResult .completed 3 60 (by decide),
    h4 timeoutGateway.pollResult .requires_action 3 57 (by decide) (by decide),
    ?_⟩
  exact (h5 timeoutGateway "msg_1" { id := "run_1", status := .queued }
    .in_progress 60 rfl rfl rfl (by decide)).1

/-- C3: in a direct-mode turn the only gateway call is one completion
call whose history is the last 10 messages of the conversation snapshot
(oldest first, role and text only) followed by the new user turn. -/
theorem C3_direct_history_window (input : String) (t : Chat.Thread)
    (config : Chat.Configuration) (msgs : List Chat.Message) (fc : Nat)
    (gw : Gateway) (ts : String) (hne : trimWs input ≠ "")
    (hmode : (config.useAssistantApi && config.assistantId != "") = false) :
    gwCalls (handleSendMessage input (some t) (some config) msgs fc gw ts).1 =
      [GwCall.completion
        ((msgs.map fun msg =>
            ({ role := msg.role, content := msg.content } : Chat.ChatEntry)).drop
              (msgs.length - 10)
          ++ [{ role := Chat.Role.user, content := input }])] := by
  unfold handleSendMessage
  have hin : (trimWs input == "") = false := by simpa using hne
  simp only [hin, Bool.false_eq_true, if_false, reduceIte, hmode]
  rw [gwCalls_cons_storeAppend]
  simpa [List.length_map] using direct_gwCalls config t msgs gw input ts

/-- C3 witness: the empty-conversation `"Hello"` scenario issues exactly
one completion call with history `[{user, "Hello"}]`. -/
theorem C3_direct_history_window_witness :
    gwCalls (handleSendMessage "Hello" (some sampleThread)
        (some sampleDirectConfig) [] 0 sampleGateway "t1").1 =
      [GwCall.completion [{ role := Chat.Role.user, content := "Hello" }]] := by
  have h := C3_direct_history_window "Hello" sampleThread sampleDirectConfig
    [] 0 sampleGateway "t1" (by decide) (by decide)
  simpa using h

/-- C4 counterexample: a first successful turn renames the default-named
thread to the custom name `"Thread safety question please..."`; because
that custom name again starts with `"Thread "`, a second successful turn
overwrites it — contradicting "once renamed, never overwritten". -/
theorem C4_counterexample_rename_overwritten :
    (handleSendMessage "Thread safety question please help"
        (some sampleThread) (some sampleConfig) [] 0 sampleGateway
        "t1").1.filter (fun e => isRenameEvent e)
      = [Event.storeRename "Thread safety question please..."]
    ∧ (handleSendMessage "another question"
        (some { sampleThread with name := "Thread safety question please..." })
        (some sampleConfig) [] 0 sampleGateway "t1").1.filter
          (fun e => isRenameEvent e)
      = [Event.storeRename "another question..."]
    ∧ ("another question..." : String) ≠ "Thread safety question please..." :=
  ⟨rfl, rfl, by decide⟩

/-- C4 (amended): the auto-naming side effect renames exactly when the
current name starts with the default prefix `"Thread "`: a name without
that prefix is never renamed by any turn, and a successful turn on a
thread whose name still has the prefix renames it to the first four
space-separated tokens of the input suffixed with an ellipsis.  (A custom
name that itself starts with `"Thread "` is therefore overwritten.) -/
theorem C4_amended_rename_guard (input : String) (t : Chat.Thread)
    (config : Chat.Configuration) (msgs : List Chat.Message) (fc : Nat)
    (gw : Gateway) (ts : String) :
    (startsWithStr t.name "Thread " = false →
      (handleSendMessage input (some t) (some config) msgs fc gw ts).1.filter
        (fun e => isRenameEvent e) = [])
    ∧ (startsWithStr t.name "Thread " = true →
       (handleSendMessage input (some t) (some config) msgs fc gw ts).2 =
          .completed →
       (handleSendMessage input (some t) (some config) msgs fc gw ts).1.filter
         (fun e => isRenameEvent e)
         = [Event.storeRename (deriveThreadName input)]) := by
  have hm := turn_rename_filter input t config msgs fc gw ts
  constructor
  · intro hsw
    rw [hm]
    simp [renameEvents, hsw]
  · intro hsw hc
    rw [hm, hc]
    simp [renameEvents, hsw]

/-- C4 witness: a custom-named thread is never renamed; a default-named
thread is renamed on a successful turn. -/
theorem C4_amended_rename_guard_witness :
    (handleSendMessage "hi there" (some customThread) (some sampleConfig)
        [] 0 sampleGateway "t1").1.filter (fun e => isRenameEvent e) = []
    ∧ (handleSendMessage "hello world" (some sampleThread) (some sampleConfig)
        [] 0 sampleGateway "t1").1.filter (fun e => isRenameEvent e)
      = [Event.storeRename "hello world..."] := by
  constructor
  · exact (C4_amended_rename_guard "hi there" customThread sampleConfig
      [] 0 sampleGateway "t1").1 (by decide)
  · have h := (C4_amended_rename_guard "hello world" sampleThread sampleConfig
      [] 0 sampleGateway "t1").2 (by decide) rfl
    exact h.trans (by decide)


theorem appendedMessages_nil : appendedMessages [] = [] := rfl

theorem appendedMessages_cons_gwCall (c : GwCall) (l : List Event) :
    appendedMessages (Event.gwCall c :: l) = appendedMessages l := by
  simp [appendedMessages]

theorem appendedMessages_cons_storeAppend (m : Chat.Message) (l : List Event) :
    appendedMessages (Event.storeAppend m :: l) = m :: appendedMessages l := by
  simp [appendedMessages]

theorem appendedMessages_cons_storeRename (s : String) (l : List Event) :
    appendedMessages (Event.storeRename s :: l) = appendedMessages l := by
  simp [appendedMessages]

theorem appendedMessages_cons_webhook (b : Bool) (l : List Event) :
    appendedMessages (Event.webhook b :: l) = appendedMessages l := by
  simp [appendedMessages]

theorem appendedMessages_append (l₁ l₂ : List Event) :
    appendedMessages (l₁ ++ l₂) = appendedMessages l₁ ++ appendedMessages l₂ := by
  simp [appendedMessages]

theorem appendedMessages_replicate_poll (tid rid : String) (n : Nat) :
    appendedMessages
      (List.replicate n (Event.gwCall (GwCall.pollRun tid rid))) = [] := by
  unfold appendedMessages
  exact filterMap_replicate_of_none _ _ (by rfl) n

theorem appendedMessages_renameEvents (t : Chat.Thread) (input : String) :
    appendedMessages (renameEvents t input) = [] := by
  unfold renameEvents
  split <;> simp [appendedMessages]

theorem appendedMessages_webhookEvents (config : Chat.Configuration)
    (gw : Gateway) :
    appendedMessages (webhookEvents config gw) = [] := by
  unfold webhookEvents
  split <;> simp [appendedMessages]

theorem gwCalls_nil : gwCalls [] = [] := rfl

theorem gwCalls_cons_gwCall (c : GwCall) (l : List Event) :
    gwCalls (Event.gwCall c :: l) = c :: gwCalls l := by
  simp [gwCalls]

theorem gwCalls_append (l₁ l₂ : List Event) :
    gwCalls (l₁ ++ l₂) = gwCalls l₁ ++ gwCalls l₂ := by
  simp [gwCalls]

theorem gwCalls_replicate_poll (tid rid : String) (n : Nat) :
    gwCalls (List.replicate n (Event.gwCall (GwCall.pollRun tid rid))) =
      List.replicate n (GwCall.pollRun tid rid) := by
  unfold gwCalls
  exact filterMap_replicate_of_some _ _ _ (by rfl) n

theorem gwCalls_renameEvents (t : Chat.Thread) (input : String) :
    gwCalls (renameEvents t input) = [] := by
  unfold renameEvents
  split <;> simp [gwCalls]

theorem gwCalls_webhookEvents (config : Chat.Configuration) (gw : Gateway) :
    gwCalls (webhookEvents config gw) = [] := by
  unfold webhookEvents
  split <;> simp [gwCalls]

theorem pollList_filter_replicate (tid rid : String) (n : Nat) :
    (List.replicate n (GwCall.pollRun tid rid)).filter
      (fun c => isPollCall c || isListCall c) =
      List.replicate n (GwCall.pollRun tid rid) :=
  filter_replicate_of_pos _ _ n rfl

/-- C2 counterexample: the gateway returns the message list oldest first;
the completed turn's reply is the text of the first assistant entry in
list order (`"old"`, created at 1), not of the most recently added
assistant entry (`"new"`, created at 2).  So the reply does not equal the
most recently added assistant entry's text for every list ordering. -/
theorem C2_counterexample_list_order :
    (handleAssistantWorkflow sampleConfig sampleThread 0 sampleGateway
        "Hello" "t1").2 = .ok ()
    ∧ (appendedMessages (handleAssistantWorkflow sampleConfig sampleThread 0
          sampleGateway "Hello" "t1").1).map (fun m => m.content) = ["old"]
    ∧ (mostRecentAssistant oldestFirstData).map (fun m => extractText m.content)
      = some "new"
    ∧ ("old" : String) ≠ "new" :=
  ⟨rfl, rfl, rfl, by decide⟩

/-- C2 (amended): on a completed run the reply body is the newline-joined
text segments of the first assistant-authored entry in the order the
gateway returned the list (the most recently added entry only under a
newest-first ordering); if the list holds no assistant-authored entry the
turn fails with `noReplyFound`, distinct from run failure. -/
theorem C2_amended_first_assistant_reply (config : Chat.Configuration)
    (t : Chat.Thread) (fc : Nat) (gw : Gateway) (input ts mid : String)
    (run : Chat.RunObj) (n : Nat) (data : List Chat.ApiMessage)
    (hs : gw.sendMessageResult = .ok mid)
    (hr : gw.startRunResult = .ok run)
    (hp : pollLoop gw.pollResult run.status 60 = (.ok .completed, n))
    (hl : gw.listResult = .ok data) :
    (∀ am, data.find? (fun m => m.role == Chat.Role.assistant) = some am →
      (handleAssistantWorkflow config t fc gw input ts).2 = .ok ()
      ∧ (appendedMessages
            (handleAssistantWorkflow config t fc gw input ts).1).map
          (fun m => m.content) = [extractText am.content])
    ∧ (data.find? (fun m => m.role == Chat.Role.assistant) = none →
      (handleAssistantWorkflow config t fc gw input ts).2 =
          .error .noReplyFound
        ∧ TurnError.noReplyFound ≠ TurnError.runFailed) := by
  unfold handleAssistantWorkflow
  rw [hs, hr]
  simp only [hp, hl]
  constructor
  · intro am hf
    simp only [hf]
    constructor
    · simp
    · simp [appendedMessages_cons_gwCall, appendedMessages_cons_storeAppend,
        appendedMessages_append, appendedMessages_replicate_poll,
        appendedMessages_renameEvents, appendedMessages_webhookEvents,
        appendedMessages_nil]
  · intro hf
    simp only [hf]
    exact ⟨by simp, by simp⟩

/-- C2 witness: with a single assistant entry the reply equals its text
segments, and an assistant-free list yields `noReplyFound`. -/
theorem C2_amended_first_assistant_reply_witness :
    (handleAssistantWorkflow sampleConfig sampleThread 0 sampleGateway
        "Hello" "t1").2 = .ok ()
    ∧ (appendedMessages (handleAssistantWorkflow sampleConfig sampleThread 0
          sampleGateway "Hello" "t1").1).map (fun m => m.content)
      = [extractText (oldestFirstData.get ⟨0, by decide⟩).content] := by
  have h := (C2_amended_first_assistant_reply sampleConfig sampleThread 0
    sampleGateway "Hello" "t1" "msg_1" { id := "run_1", status := .queued }
    4 oldestFirstData rfl rfl rfl rfl).1
    (oldestFirstData.get ⟨0, by decide⟩) (by decide)
  exact ⟨h.1, h.2⟩

/-- C5: when message posting and run start succeed, the started status is
non-terminal and the four successive status reads answer
`queued, in_progress, in_progress, completed`, the turn issues exactly 4
poll calls and then exactly one list-messages call. -/
theorem C5_four_polls_then_one_list (config : Chat.Configuration)
    (t : Chat.Thread) (fc : Nat) (gw : Gateway) (input ts mid : String)
    (run : Chat.RunObj)
    (hs : gw.sendMessageResult = .ok mid)
    (hr : gw.startRunResult = .ok run)
    (hnt : isTerminal run.status = false)
    (h0 : gw.pollResult 0 = .ok .queued)
    (h1 : gw.pollResult 1 = .ok .in_progress)
    (h2 : gw.pollResult 2 = .ok .in_progress)
    (h3 : gw.pollResult 3 = .ok .completed) :
    (gwCalls (handleAssistantWorkflow config t fc gw input ts).1).filter
        (fun c => isPollCall c || isListCall c) =
      List.replicate 4 (GwCall.pollRun t.threadId run.id)
        ++ [GwCall.listMessages t.threadId] := by
  unfold handleAssistantWorkflow
  rw [hs, hr]
  simp only [pollLoop_four gw.pollResult run.status hnt h0 h1 h2 h3]
  cases hl : gw.listResult with
  | error e =>
    simp [gwCalls_cons_gwCall, gwCalls_append, gwCalls_replicate_poll,
      gwCalls_nil, pollList_filter_replicate, isPollCall, isListCall,
      List.filter_append]
  | ok data =>
    cases hf : data.find? (fun m => m.role == Chat.Role.assistant) with
    | none =>
      simp only [hf]
      simp [gwCalls_cons_gwCall, gwCalls_append, gwCalls_replicate_poll,
        gwCalls_nil, pollList_filter_replicate, isPollCall, isListCall,
        List.filter_append]
    | some am =>
      simp only [hf]
      simp [gwCalls_cons_gwCall, gwCalls_cons_storeAppend, gwCalls_append,
        gwCalls_replicate_poll, gwCalls_renameEvents, gwCalls_webhookEvents,
        gwCalls_nil, pollList_filter_replicate, isPollCall, isListCall,
        List.filter_append]

/-- C5 witness: the sample gateway realises the
`queued, in_progress, in_progress, completed` scenario. -/
theorem C5_four_polls_then_one_list_witness :
    (gwCalls (handleAssistantWorkflow sampleConfig sampleThread 0
        sampleGateway "Hello" "t1").1).filter
        (fun c => isPollCall c || isListCall c) =
      List.replicate 4 (GwCall.pollRun "thread_1" "run_1")
        ++ [GwCall.listMessages "thread_1"] := by
  have h := C5_four_polls_then_one_list sampleConfig sampleThread 0
    sampleGateway "Hello" "t1" "msg_1" { id := "run_1", status := .queued }
    rfl rfl (by decide) rfl rfl rfl rfl
  simpa using h


end Chat
